import Mathlib

/-
  Verification of the AMALI admin dashboard credit engine.

  Embedded source units:
  * CreditService.calculateSimulation / calculateSimulationWithTx (the two
    bodies are verbatim copies of each other in the source, so a single
    embedding serves both),
  * CreditService.createTransaction,
  * TransactionController.simulate / TransactionController.create
    (input validation and HTTP status classification),
  * PaymentController.payInstallment.

  Modelling conventions:
  * decimal.js values (precision 20 significant digits, ROUND_HALF_UP) are
    modelled as exact rationals.  Every quantity the engine handles stays far
    below 20 significant digits, where the Decimal operations used by the code
    (plus, minus, mul, div, toDecimalPlaces with ROUND_CEIL) agree with exact
    rational arithmetic followed by the explicit ceiling modelled below.
  * prisma.$transaction rolls the whole unit of work back when the callback
    throws; a thrown Error is modelled as Except.error carrying the message
    string, with no successor state.
  * JS Date values are modelled as (year, month 0-11, day-of-month) triples;
    the time-of-day components, which the code zeroes with setHours(0,0,0,0),
    are dropped.  Database ids handed out by autoincrement are modelled by a
    nextId counter on the database state.
  * Number rendering inside error messages (template literals, toFixed(0))
    is modelled by toString on the rational; the HTTP status classification
    in TransactionController.create only inspects the fixed message parts,
    never the rendered numbers.
-/

namespace Amali

/-! ## Data model (prisma schema rows used by the engine) -/

structure LoanScheme where
  id : Nat
  name : String
  interest_rate : ℚ
  min_dp_percent : ℚ
  tenor_options : List Nat
  penalty_fee_daily : ℚ
  is_active : Bool
deriving DecidableEq, Inhabited, Repr

structure Product where
  id : Nat
  sku : String
  name : String
  base_price : ℚ
  stock_qty : Int
  is_active : Bool
deriving DecidableEq, Inhabited, Repr

structure Customer where
  id : Nat
  nik : String
  name : String
  phone : String
  address : String
deriving DecidableEq, Inhabited, Repr

inductive TxStatus where
  | PENDING | ACTIVE | PAID | VOID | BAD_DEBT
deriving DecidableEq, Inhabited, Repr

inductive InstStatus where
  | UNPAID | PARTIAL | PAID | LATE
deriving DecidableEq, Inhabited, Repr

/-- JS Date, reduced to its calendar components (month is 0-indexed as in JS;
the code zeroes the time-of-day, which is therefore dropped). -/
structure Date where
  year : Nat
  month : Nat
  day : Nat
deriving DecidableEq, Inhabited, Repr

structure Transaction where
  id : Nat
  customerId : Nat
  productId : Nat
  customer_name : String
  customer_phone : String
  customer_ktp : String
  total_price : ℚ
  dp_amount : ℚ
  scheme_snapshot : LoanScheme
  status : TxStatus
deriving DecidableEq, Inhabited, Repr

structure CreditContract where
  id : Nat
  transaction_id : Nat
  principal_amount : ℚ
  total_interest : ℚ
  monthly_installment : ℚ
  start_date : Date
  due_date_day : Nat
  tenor_months : Nat
deriving DecidableEq, Inhabited, Repr

structure Installment where
  id : Nat
  contract_id : Nat
  installment_nth : Nat
  due_date : Date
  amount_due : ℚ
  amount_paid : ℚ
  penalty_paid : ℚ
  penalty_accrued : ℚ
  status : InstStatus
  paid_at : Option Date
deriving DecidableEq, Inhabited, Repr

/-- The persisted state visible to the credit engine. -/
structure DB where
  schemes : List LoanScheme
  products : List Product
  customers : List Customer
  transactions : List Transaction
  contracts : List CreditContract
  installments : List Installment
  nextId : Nat
deriving DecidableEq, Inhabited, Repr

/-! ## Except helpers (used to state results about fallible operations) -/

def isOkE {α : Type} (e : Except String α) : Bool :=
  match e with
  | .ok _ => true
  | .error _ => false

def okD {α : Type} (e : Except String α) (d : α) : α :=
  match e with
  | .ok a => a
  | .error _ => d

/-! ## Error message strings (CreditService / PaymentController)

The trailing fixed phrase of each message is kept as a separate append
operand so that the substring classification performed by
TransactionController.create can be reasoned about. -/

def msgSchemeNotFound (schemeId : Nat) : String :=
  "Loan scheme with ID " ++ toString schemeId ++ " " ++ "not found"

def msgSchemeInactive (name : String) : String :=
  "Loan scheme \"" ++ name ++ "\" is not active"

def msgTenorUnavailable (t : Nat) (opts : List Nat) : String :=
  "Tenor " ++ toString t ++ " bulan tidak tersedia. Pilihan: " ++
    String.intercalate ", " (opts.map toString) ++ " bulan"

/-- Decimal.toFixed(0) under ROUND_HALF_UP (arguments are non-negative on
every path reaching this message). -/
def toFixed0 (q : ℚ) : String := toString ⌊q + 1/2⌋

def msgDpTooLow (minDpPercent minDpAmount dp : ℚ) : String :=
  "DP minimal " ++ toString minDpPercent ++ "% dari harga (Rp " ++
    toFixed0 minDpAmount ++ "). " ++ "DP yang dimasukkan: Rp " ++ toFixed0 dp

def msgBadDueDateDay : String := "Tanggal jatuh tempo harus antara 1-28"

def msgProductNotFound (productId : Nat) : String :=
  "Produk dengan ID " ++ toString productId ++ " " ++ "tidak ditemukan"

def msgProductInactive (name : String) : String :=
  "Produk \"" ++ name ++ "\" " ++ "tidak aktif"

def msgOutOfStock (name : String) : String :=
  "Stok produk \"" ++ name ++ "\" " ++ "habis"

def msgCustomerNotFound (customerId : Nat) : String :=
  "Customer dengan ID " ++ toString customerId ++ " " ++ "tidak ditemukan"

/-! ## Simulation engine (CreditService.calculateSimulation) -/

structure SimulationInput where
  price : ℚ
  dp : ℚ
  schemeId : Nat
  tenorMonths : Nat
deriving DecidableEq, Inhabited, Repr

/-- The raw part of CreditService's SimulationResult (the display part is just
toFixed(2) rendering of the same rationals and carries no extra information). -/
structure SimulationResult where
  price : ℚ
  dp : ℚ
  principal : ℚ
  interestRate : ℚ
  interestAmount : ℚ
  totalLoan : ℚ
  monthlyInstallment : ℚ
  tenorMonths : Nat
  scheme : LoanScheme
deriving DecidableEq, Inhabited, Repr

/-- Step 4 of calculateSimulation: the financial computation performed once
all validations have passed. -/
def mkSim (scheme : LoanScheme) (input : SimulationInput) : SimulationResult :=
  let principal := input.price - input.dp
  let interestRate := scheme.interest_rate
  let interestAmount := principal * interestRate / 100 * (input.tenorMonths : ℚ)
  let totalLoan := principal + interestAmount
  let monthlyInstallment : ℚ := ((⌈totalLoan / (input.tenorMonths : ℚ)⌉ : ℤ) : ℚ)
  { price := input.price, dp := input.dp, principal := principal,
    interestRate := interestRate, interestAmount := interestAmount,
    totalLoan := totalLoan, monthlyInstallment := monthlyInstallment,
    tenorMonths := input.tenorMonths, scheme := scheme }

/-- calculateSimulation after the scheme row has been fetched: the is_active
check, the tenor membership check, the minimum-DP check, then the
computation.  calculateSimulationWithTx duplicates exactly this body. -/
def simCore (scheme : LoanScheme) (input : SimulationInput) :
    Except String SimulationResult :=
  if scheme.is_active = false then
    .error (msgSchemeInactive scheme.name)
  else if input.tenorMonths ∉ scheme.tenor_options then
    .error (msgTenorUnavailable input.tenorMonths scheme.tenor_options)
  else if input.dp < input.price * scheme.min_dp_percent / 100 then
    .error (msgDpTooLow scheme.min_dp_percent
      (input.price * scheme.min_dp_percent / 100) input.dp)
  else
    .ok (mkSim scheme input)

def calculateSimulation (schemes : List LoanScheme) (input : SimulationInput) :
    Except String SimulationResult :=
  match schemes.find? (fun s => s.id == input.schemeId) with
  | none => .error (msgSchemeNotFound input.schemeId)
  | some scheme => simCore scheme input

/-! ## Characterisation of a successful simulation -/

theorem simCore_ok (scheme : LoanScheme) (input : SimulationInput)
    (sim : SimulationResult) (h : simCore scheme input = .ok sim) :
    scheme.is_active = true ∧
    input.tenorMonths ∈ scheme.tenor_options ∧
    input.price * scheme.min_dp_percent / 100 ≤ input.dp ∧
    sim = mkSim scheme input := by
  unfold simCore at h
  split at h
  · exact Except.noConfusion h
  · split at h
    · exact Except.noConfusion h
    · split at h
      · exact Except.noConfusion h
      · rename_i hact hmem hdp
        refine ⟨?_, ?_, ?_, ?_⟩
        · cases hb : scheme.is_active with
          | true => rfl
          | false => exact absurd hb hact
        · exact not_not.mp hmem
        · exact le_of_not_lt hdp
        · exact (Except.ok.inj h).symm

theorem calculateSimulation_ok (schemes : List LoanScheme)
    (input : SimulationInput) (sim : SimulationResult) (scheme : LoanScheme)
    (hs : schemes.find? (fun s => s.id == input.schemeId) = some scheme)
    (h : calculateSimulation schemes input = .ok sim) :
    scheme.is_active = true ∧
    input.tenorMonths ∈ scheme.tenor_options ∧
    input.price * scheme.min_dp_percent / 100 ≤ input.dp ∧
    sim = mkSim scheme input := by
  unfold calculateSimulation at h
  rw [hs] at h
  exact simCore_ok scheme input sim h

/-! ## C1: the simulation formula -/

/-- C1: for every simulation input that passes validation, the engine computes
principal = price − dp, interestAmount = principal × (interest_rate / 100) ×
tenorMonths, totalLoan = principal + interestAmount and monthlyInstallment =
ceiling(totalLoan / tenorMonths) to 0 decimal places. -/
theorem calculateSimulation_formula (schemes : List LoanScheme)
    (input : SimulationInput) (sim : SimulationResult) (scheme : LoanScheme)
    (hs : schemes.find? (fun s => s.id == input.schemeId) = some scheme)
    (h : calculateSimulation schemes input = .ok sim) :
    sim.principal = input.price - input.dp ∧
    sim.interestAmount =
      sim.principal * (scheme.interest_rate / 100) * (input.tenorMonths : ℚ) ∧
    sim.totalLoan = sim.principal + sim.interestAmount ∧
    sim.monthlyInstallment =
      ((⌈sim.totalLoan / (input.tenorMonths : ℚ)⌉ : ℤ) : ℚ) := by
  obtain ⟨-, -, -, hsim⟩ := calculateSimulation_ok schemes input sim scheme hs h
  subst hsim
  refine ⟨rfl, ?_, rfl, rfl⟩
  show (input.price - input.dp) * scheme.interest_rate / 100 * (input.tenorMonths : ℚ) =
    (input.price - input.dp) * (scheme.interest_rate / 100) * (input.tenorMonths : ℚ)
  ring

/-- The demo scheme of the spec example: 2%/month flat, min DP 10%,
tenor options [3, 6, 9, 12]. -/
def demoScheme : LoanScheme :=
  { id := 1, name := "Reguler", interest_rate := 2, min_dp_percent := 10,
    tenor_options := [3, 6, 9, 12], penalty_fee_daily := 0, is_active := true }

def demoInput : SimulationInput :=
  { price := 4500000, dp := 500000, schemeId := 1, tenorMonths := 6 }

def demoSim : SimulationResult := mkSim demoScheme demoInput

theorem demo_eval : calculateSimulation [demoScheme] demoInput = .ok demoSim := by
  show simCore demoScheme demoInput = .ok demoSim
  unfold simCore demoSim
  norm_num [demoScheme, demoInput]

theorem demo_ceil : (⌈(2240000 : ℚ) / 3⌉ : ℤ) = 746667 := by
  rw [Int.ceil_eq_iff]
  norm_num

/-- Witness for C1 at the spec's worked example: price 4,500,000, dp 500,000,
rate 2%/month, tenor 6.  The computed breakdown is principal 4,000,000,
interest 480,000, total loan 4,480,000, monthly installment 746,667. -/
theorem calculateSimulation_formula_witness :
    (calculateSimulation [demoScheme] demoInput = .ok demoSim ∧
      demoSim.principal = 4000000 ∧
      demoSim.interestAmount = 480000 ∧
      demoSim.totalLoan = 4480000 ∧
      demoSim.monthlyInstallment = 746667) ∧
    (demoSim.principal = demoInput.price - demoInput.dp ∧
      demoSim.interestAmount =
        demoSim.principal * (demoScheme.interest_rate / 100) * (demoInput.tenorMonths : ℚ) ∧
      demoSim.totalLoan = demoSim.principal + demoSim.interestAmount ∧
      demoSim.monthlyInstallment =
        ((⌈demoSim.totalLoan / (demoInput.tenorMonths : ℚ)⌉ : ℤ) : ℚ)) :=
  ⟨⟨demo_eval,
    by norm_num [demoSim, mkSim, demoScheme, demoInput],
    by norm_num [demoSim, mkSim, demoScheme, demoInput],
    by norm_num [demoSim, mkSim, demoScheme, demoInput],
    by norm_num [demoSim, mkSim, demoScheme, demoInput, demo_ceil]⟩,
    calculateSimulation_formula [demoScheme] demoInput demoSim demoScheme rfl demo_eval⟩

/-! ## C3: the rounding gap of the ceiling-rounded installment -/

theorem calculateSimulation_ok_ex (schemes : List LoanScheme)
    (input : SimulationInput) (sim : SimulationResult)
    (h : calculateSimulation schemes input = .ok sim) :
    ∃ scheme, schemes.find? (fun s => s.id == input.schemeId) = some scheme ∧
      scheme.is_active = true ∧
      input.tenorMonths ∈ scheme.tenor_options ∧
      input.price * scheme.min_dp_percent / 100 ≤ input.dp ∧
      sim = mkSim scheme input := by
  unfold calculateSimulation at h
  split at h
  · exact Except.noConfusion h
  · rename_i scheme hfind
    obtain ⟨h1, h2, h3, h4⟩ := simCore_ok scheme input sim h
    exact ⟨scheme, hfind, h1, h2, h3, h4⟩

theorem mkSim_monthly (scheme : LoanScheme) (input : SimulationInput) :
    (mkSim scheme input).monthlyInstallment =
      ((⌈(mkSim scheme input).totalLoan / (input.tenorMonths : ℚ)⌉ : ℤ) : ℚ) := rfl

/-- Arithmetic core of the rounding-gap analysis: bounds on
t·⌈q/t⌉ relative to q. -/
theorem ceil_div_bounds (q : ℚ) (t : ℕ) (ht : 0 < t) :
    q ≤ ((⌈q / (t : ℚ)⌉ : ℤ) : ℚ) * t ∧
    (((⌈q / (t : ℚ)⌉ : ℤ) : ℚ) * t = q ↔ (q / (t : ℚ)).den = 1) ∧
    ((⌈q / (t : ℚ)⌉ : ℤ) : ℚ) * t - q < t ∧
    (q.den = 1 → ((⌈q / (t : ℚ)⌉ : ℤ) : ℚ) * t - q ≤ (t : ℚ) - 1) := by
  have ht' : (0 : ℚ) < t := by exact_mod_cast ht
  have hne : (t : ℚ) ≠ 0 := ne_of_gt ht'
  refine ⟨?_, ⟨?_, ?_⟩, ?_, ?_⟩
  · have h1 : q / t ≤ ((⌈q / (t : ℚ)⌉ : ℤ) : ℚ) := Int.le_ceil _
    calc q = q / t * t := (div_mul_cancel₀ q hne).symm
    _ ≤ _ := mul_le_mul_of_nonneg_right h1 (le_of_lt ht')
  · intro he
    have hdiv : q / (t : ℚ) = ((⌈q / (t : ℚ)⌉ : ℤ) : ℚ) := by
      rw [div_eq_iff hne]
      exact he.symm
    rw [hdiv, Rat.den_intCast]
  · intro hden
    have hq : ((q / (t : ℚ)).num : ℚ) = q / (t : ℚ) := by
      have := Rat.num_div_den (q / (t : ℚ))
      rw [hden] at this
      simpa using this
    rw [← hq, Int.ceil_intCast, hq, div_mul_cancel₀ q hne]
  · have h2 : ((⌈q / (t : ℚ)⌉ : ℤ) : ℚ) < q / t + 1 := Int.ceil_lt_add_one _
    have h3 : ((⌈q / (t : ℚ)⌉ : ℤ) : ℚ) * t < (q / t + 1) * t :=
      mul_lt_mul_of_pos_right h2 ht'
    rw [add_mul, one_mul, div_mul_cancel₀ q hne] at h3
    linarith
  · intro hden
    have hq : (q.num : ℚ) = q := by
      have := Rat.num_div_den q
      rw [hden] at this
      simpa using this
    have h2 : ((⌈q / (t : ℚ)⌉ : ℤ) : ℚ) < q / t + 1 := Int.ceil_lt_add_one _
    have h3 : ((⌈q / (t : ℚ)⌉ : ℤ) : ℚ) * t < (q / t + 1) * t :=
      mul_lt_mul_of_pos_right h2 ht'
    rw [add_mul, one_mul, div_mul_cancel₀ q hne] at h3
    have h4 : (⌈q / (t : ℚ)⌉ * t : ℤ) < q.num + t := by
      have : ((⌈q / (t : ℚ)⌉ * t : ℤ) : ℚ) < ((q.num + t : ℤ) : ℚ) := by
        push_cast
        rw [hq]
        exact h3
      exact_mod_cast this
  -- strict < between integers gives the off-by-one bound
    have h5 : (⌈q / (t : ℚ)⌉ * t : ℤ) ≤ q.num + t - 1 := by omega
    have h6 : ((⌈q / (t : ℚ)⌉ * t : ℤ) : ℚ) ≤ ((q.num + t - 1 : ℤ) : ℚ) := by
      exact_mod_cast h5
    push_cast at h6
    rw [hq] at h6
    linarith

/-- Scheme for the C3 counterexample: 2.5 %/month flat interest, no minimum
DP, tenor 2 allowed.  principal 2, interest 0.1, totalLoan 2.1,
monthlyInstallment ⌈1.05⌉ = 2, and 2·2 − 2.1 = 1.9 > tenor − 1 = 1. -/
def cexScheme : LoanScheme :=
  { id := 1, name := "Promo", interest_rate := 5/2, min_dp_percent := 0,
    tenor_options := [2], penalty_fee_daily := 0, is_active := true }

def cexInput : SimulationInput :=
  { price := 3, dp := 1, schemeId := 1, tenorMonths := 2 }

def cexSim : SimulationResult := mkSim cexScheme cexInput

theorem cex_eval : calculateSimulation [cexScheme] cexInput = .ok cexSim := by
  show simCore cexScheme cexInput = .ok cexSim
  unfold simCore cexSim
  norm_num [cexScheme, cexInput]

theorem cex_ceil : (⌈(21 : ℚ) / 20⌉ : ℤ) = 2 := by
  rw [Int.ceil_eq_iff]
  norm_num

/-- C3 counterexample: a validated simulation (price 3, dp 1, rate 2.5 %,
tenor 2) whose excess monthlyInstallment·tenor − totalLoan is 1.9, strictly
above the claimed bound tenor − 1 = 1 (totalLoan = 2.1 is not a whole
number of currency units). -/
theorem installment_excess_counterexample :
    calculateSimulation [cexScheme] cexInput = .ok cexSim ∧
    cexSim.monthlyInstallment * (cexInput.tenorMonths : ℚ) - cexSim.totalLoan = 19/10 ∧
    ¬ (cexSim.monthlyInstallment * (cexInput.tenorMonths : ℚ) - cexSim.totalLoan ≤
        (cexInput.tenorMonths : ℚ) - 1) := by
  refine ⟨cex_eval, ?_, ?_⟩
  · norm_num [cexSim, mkSim, cexScheme, cexInput, cex_ceil]
  · norm_num [cexSim, mkSim, cexScheme, cexInput, cex_ceil]

/-- C3 (amended): for every simulation that passes validation,
monthlyInstallment × tenorMonths ≥ totalLoan, with equality exactly when
tenorMonths divides totalLoan evenly (totalLoan / tenorMonths is a whole
number); the excess is strictly below tenorMonths, and it is at most
tenorMonths − 1 currency units whenever totalLoan is itself a whole number
of currency units (for fractional totalLoan it can reach up to just under
tenorMonths). -/
theorem installment_excess_bounds (schemes : List LoanScheme)
    (input : SimulationInput) (sim : SimulationResult)
    (ht : 0 < input.tenorMonths)
    (h : calculateSimulation schemes input = .ok sim) :
    sim.totalLoan ≤ sim.monthlyInstallment * (input.tenorMonths : ℚ) ∧
    (sim.monthlyInstallment * (input.tenorMonths : ℚ) = sim.totalLoan ↔
      (sim.totalLoan / (input.tenorMonths : ℚ)).den = 1) ∧
    sim.monthlyInstallment * (input.tenorMonths : ℚ) - sim.totalLoan <
      (input.tenorMonths : ℚ) ∧
    (sim.totalLoan.den = 1 →
      sim.monthlyInstallment * (input.tenorMonths : ℚ) - sim.totalLoan ≤
        (input.tenorMonths : ℚ) - 1) := by
  obtain ⟨scheme, -, -, -, -, hsim⟩ := calculateSimulation_ok_ex schemes input sim h
  subst hsim
  rw [mkSim_monthly scheme input]
  exact ceil_div_bounds (mkSim scheme input).totalLoan input.tenorMonths ht

/-- Witness for the amended C3 at the spec's worked example (tenor 6,
totalLoan 4,480,000). -/
theorem installment_excess_bounds_witness :
    demoSim.totalLoan ≤ demoSim.monthlyInstallment * (demoInput.tenorMonths : ℚ) ∧
    (demoSim.monthlyInstallment * (demoInput.tenorMonths : ℚ) = demoSim.totalLoan ↔
      (demoSim.totalLoan / (demoInput.tenorMonths : ℚ)).den = 1) ∧
    demoSim.monthlyInstallment * (demoInput.tenorMonths : ℚ) - demoSim.totalLoan <
      (demoInput.tenorMonths : ℚ) ∧
    (demoSim.totalLoan.den = 1 →
      demoSim.monthlyInstallment * (demoInput.tenorMonths : ℚ) - demoSim.totalLoan ≤
        (demoInput.tenorMonths : ℚ) - 1) :=
  installment_excess_bounds [demoScheme] demoInput demoSim (by norm_num [demoInput])
    demo_eval

/-! ## JS date arithmetic used by the installment scheduler

The loop body is
  dueDate.setMonth(dueDate.getMonth() + i); dueDate.setDate(dueDateDay);
setMonth keeps the day-of-month and, when that day does not exist in the
target month, rolls over into the following month by the surplus days (for
day-of-month ≤ 31 the surplus is at most 3, so a single roll always
suffices); setDate then replaces the day-of-month (the value is 1..28 here,
so no further normalisation can occur). -/

def isLeap (y : Nat) : Bool :=
  y % 4 == 0 && (y % 100 != 0 || y % 400 == 0)

/-- Month lengths with JS 0-indexed months (1 = February). -/
def daysInMonth (y m : Nat) : Nat :=
  if m = 1 then (if isLeap y then 29 else 28)
  else if m = 3 ∨ m = 5 ∨ m = 8 ∨ m = 10 then 30
  else 31

def jsSetMonth (d : Date) (m : Nat) : Date :=
  let total := d.year * 12 + m
  if d.day ≤ daysInMonth (total / 12) (total % 12) then
    { year := total / 12, month := total % 12, day := d.day }
  else
    { year := (total + 1) / 12, month := (total + 1) % 12,
      day := d.day - daysInMonth (total / 12) (total % 12) }

def jsSetDate (d : Date) (day : Nat) : Date := { d with day := day }

def dueDateFrom (startDate : Date) (dueDateDay : Nat) (i : Nat) : Date :=
  jsSetDate (jsSetMonth startDate (startDate.month + i)) dueDateDay

/-! ## Transaction orchestrator (CreditService.createTransaction) -/

structure CreateTransactionInput where
  productId : Nat
  customerId : Nat
  price : ℚ
  dp : ℚ
  schemeId : Nat
  tenorMonths : Nat
  dueDateDay : Nat
deriving DecidableEq, Inhabited, Repr

structure CreateResult where
  transaction : Transaction
  contract : CreditContract
  installments : List Installment
  remainingStock : Int
  simulation : SimulationResult
deriving DecidableEq, Inhabited, Repr

/-- Step 5 of createTransaction: the loop creating one Installment row per
month, i = 1..tenorMonths. -/
def mkInstallments (contractId instBase : Nat) (startDate : Date)
    (dueDateDay tenorMonths : Nat) (monthly : ℚ) : List Installment :=
  (List.range tenorMonths).map (fun k =>
    { id := instBase + k, contract_id := contractId, installment_nth := k + 1,
      due_date := dueDateFrom startDate dueDateDay (k + 1),
      amount_due := monthly, amount_paid := 0, penalty_paid := 0,
      penalty_accrued := 0, status := .UNPAID, paid_at := none })

/-- prisma update with a decrement on the row keyed by pid. -/
def decrementStock (products : List Product) (pid : Nat) : List Product :=
  products.map (fun p =>
    if p.id == pid then { p with stock_qty := p.stock_qty - 1 } else p)

/-- Steps 3-6 of createTransaction: the writes performed after every
validation has passed (transaction with frozen scheme snapshot, contract,
tenorMonths installments, stock decrement). -/
def buildCreate (db : DB) (now : Date) (input : CreateTransactionInput)
    (product : Product) (customer : Customer) (sim : SimulationResult) :
    DB × CreateResult :=
  let txId := db.nextId
  let contractId := db.nextId + 1
  let instBase := db.nextId + 2
  let transaction : Transaction :=
    { id := txId, customerId := customer.id, productId := product.id,
      customer_name := customer.name, customer_phone := customer.phone,
      customer_ktp := customer.nik, total_price := input.price,
      dp_amount := input.dp, scheme_snapshot := sim.scheme, status := .ACTIVE }
  let contract : CreditContract :=
    { id := contractId, transaction_id := txId,
      principal_amount := sim.principal, total_interest := sim.interestAmount,
      monthly_installment := sim.monthlyInstallment, start_date := now,
      due_date_day := input.dueDateDay, tenor_months := input.tenorMonths }
  let installments := mkInstallments contractId instBase now input.dueDateDay
    input.tenorMonths sim.monthlyInstallment
  let db' : DB :=
    { db with
      transactions := db.transactions ++ [transaction],
      contracts := db.contracts ++ [contract],
      installments := db.installments ++ installments,
      products := decrementStock db.products input.productId,
      nextId := instBase + input.tenorMonths }
  (db', { transaction := transaction, contract := contract,
          installments := installments,
          remainingStock := product.stock_qty - 1, simulation := sim })

def createTransaction (db : DB) (now : Date) (input : CreateTransactionInput) :
    Except String (DB × CreateResult) :=
  if input.dueDateDay < 1 ∨ 28 < input.dueDateDay then
    .error msgBadDueDateDay
  else
    match db.products.find? (fun p => p.id == input.productId) with
    | none => .error (msgProductNotFound input.productId)
    | some product =>
      if product.is_active = false then
        .error (msgProductInactive product.name)
      else if product.stock_qty ≤ 0 then
        .error (msgOutOfStock product.name)
      else
        match db.customers.find? (fun c => c.id == input.customerId) with
        | none => .error (msgCustomerNotFound input.customerId)
        | some customer =>
          match calculateSimulation db.schemes
              { price := input.price, dp := input.dp,
                schemeId := input.schemeId, tenorMonths := input.tenorMonths } with
          | .error e => .error e
          | .ok sim => .ok (buildCreate db now input product customer sim)

/-! ## Characterisation of createTransaction outcomes -/

theorem createTransaction_ok (db : DB) (now : Date)
    (input : CreateTransactionInput) (db' : DB) (res : CreateResult)
    (h : createTransaction db now input = .ok (db', res)) :
    ∃ product customer sim,
      db.products.find? (fun p => p.id == input.productId) = some product ∧
      product.is_active = true ∧ 0 < product.stock_qty ∧
      db.customers.find? (fun c => c.id == input.customerId) = some customer ∧
      calculateSimulation db.schemes
        { price := input.price, dp := input.dp, schemeId := input.schemeId,
          tenorMonths := input.tenorMonths } = .ok sim ∧
      1 ≤ input.dueDateDay ∧ input.dueDateDay ≤ 28 ∧
      (db', res) = buildCreate db now input product customer sim := by
  unfold createTransaction at h
  split at h
  · exact Except.noConfusion h
  · rename_i hday
    split at h
    · exact Except.noConfusion h
    · rename_i product hprod
      split at h
      · exact Except.noConfusion h
      · split at h
        · exact Except.noConfusion h
        · rename_i hact hstock
          split at h
          · exact Except.noConfusion h
          · rename_i customer hcust
            split at h
            · exact Except.noConfusion h
            · rename_i sim hsim
              refine ⟨product, customer, sim, hprod, ?_, ?_, hcust, hsim, ?_, ?_, ?_⟩
              · cases hb : product.is_active with
                | true => rfl
                | false => exact absurd hb hact
              · exact lt_of_not_le hstock
              · omega
              · omega
              · exact (Except.ok.inj h).symm

theorem createTransaction_eq_ok (db : DB) (now : Date)
    (input : CreateTransactionInput) (product : Product) (customer : Customer)
    (sim : SimulationResult)
    (hprod : db.products.find? (fun p => p.id == input.productId) = some product)
    (hact : product.is_active = true) (hstock : 0 < product.stock_qty)
    (hcust : db.customers.find? (fun c => c.id == input.customerId) = some customer)
    (hsim : calculateSimulation db.schemes
      { price := input.price, dp := input.dp, schemeId := input.schemeId,
        tenorMonths := input.tenorMonths } = .ok sim)
    (hday1 : 1 ≤ input.dueDateDay) (hday2 : input.dueDateDay ≤ 28) :
    createTransaction db now input =
      .ok (buildCreate db now input product customer sim) := by
  have hday : ¬ (input.dueDateDay < 1 ∨ 28 < input.dueDateDay) := by omega
  have hact' : ¬ (product.is_active = false) := by simp [hact]
  have hstock' : ¬ (product.stock_qty ≤ 0) := not_le.mpr hstock
  simp only [createTransaction, if_neg hday, hprod, if_neg hact', if_neg hstock',
    hcust, hsim]

/-! ## Projections of buildCreate -/

theorem buildCreate_snd_installments (db : DB) (now : Date)
    (input : CreateTransactionInput) (product : Product) (customer : Customer)
    (sim : SimulationResult) :
    (buildCreate db now input product customer sim).2.installments =
      mkInstallments (db.nextId + 1) (db.nextId + 2) now input.dueDateDay
        input.tenorMonths sim.monthlyInstallment := rfl

theorem buildCreate_snd_simulation (db : DB) (now : Date)
    (input : CreateTransactionInput) (product : Product) (customer : Customer)
    (sim : SimulationResult) :
    (buildCreate db now input product customer sim).2.simulation = sim := rfl

theorem buildCreate_fst_installments (db : DB) (now : Date)
    (input : CreateTransactionInput) (product : Product) (customer : Customer)
    (sim : SimulationResult) :
    (buildCreate db now input product customer sim).1.installments =
      db.installments ++ (buildCreate db now input product customer sim).2.installments := rfl

theorem buildCreate_fst_products (db : DB) (now : Date)
    (input : CreateTransactionInput) (product : Product) (customer : Customer)
    (sim : SimulationResult) :
    (buildCreate db now input product customer sim).1.products =
      decrementStock db.products input.productId := rfl

/-! ## Shape of the installment schedule -/

theorem mkInstallments_length (cid base : Nat) (sd : Date) (dd n : Nat) (m : ℚ) :
    (mkInstallments cid base sd dd n m).length = n := by
  simp [mkInstallments]

theorem mkInstallments_nth (cid base : Nat) (sd : Date) (dd n : Nat) (m : ℚ) :
    (mkInstallments cid base sd dd n m).map (fun i => i.installment_nth) =
      List.range' 1 n := by
  unfold mkInstallments
  rw [List.map_map, List.range'_eq_map_range]
  apply List.map_congr_left
  intro k _
  simp [Nat.add_comm]

theorem mkInstallments_amounts (cid base : Nat) (sd : Date) (dd n : Nat) (m : ℚ) :
    (mkInstallments cid base sd dd n m).map (fun i => i.amount_due) =
      List.replicate n m := by
  unfold mkInstallments
  rw [List.map_map]
  refine List.eq_replicate_iff.mpr ⟨by simp, ?_⟩
  intro b hb
  simp only [List.mem_map, List.mem_range, Function.comp] at hb
  obtain ⟨k, -, rfl⟩ := hb
  rfl

theorem mkInstallments_statuses (cid base : Nat) (sd : Date) (dd n : Nat) (m : ℚ) :
    (mkInstallments cid base sd dd n m).map (fun i => i.status) =
      List.replicate n InstStatus.UNPAID := by
  unfold mkInstallments
  rw [List.map_map]
  refine List.eq_replicate_iff.mpr ⟨by simp, ?_⟩
  intro b hb
  simp only [List.mem_map, List.mem_range, Function.comp] at hb
  obtain ⟨k, -, rfl⟩ := hb
  rfl

/-! ## C2: the created installment rows -/

/-- C2: every successful CreateTransaction call creates exactly tenorMonths
installment rows (appended to the installment table), their installment_nth
values are exactly 1..tenorMonths in order with no gaps, every row's
amount_due is the server-side simulation's monthly installment, and every
row's status is UNPAID. -/
theorem createTransaction_installments (db : DB) (now : Date)
    (input : CreateTransactionInput) (db' : DB) (res : CreateResult)
    (h : createTransaction db now input = .ok (db', res)) :
    res.installments.length = input.tenorMonths ∧
    res.installments.map (fun i => i.installment_nth) =
      List.range' 1 input.tenorMonths ∧
    res.installments.map (fun i => i.amount_due) =
      List.replicate input.tenorMonths res.simulation.monthlyInstallment ∧
    res.installments.map (fun i => i.status) =
      List.replicate input.tenorMonths InstStatus.UNPAID ∧
    db'.installments = db.installments ++ res.installments := by
  obtain ⟨product, customer, sim, -, -, -, -, -, -, -, hbuild⟩ :=
    createTransaction_ok db now input db' res h
  have hdb : db' = (buildCreate db now input product customer sim).1 :=
    congrArg Prod.fst hbuild
  have hres : res = (buildCreate db now input product customer sim).2 :=
    congrArg Prod.snd hbuild
  subst hdb
  subst hres
  rw [buildCreate_snd_installments, buildCreate_snd_simulation,
    buildCreate_fst_installments, buildCreate_snd_installments]
  exact ⟨mkInstallments_length _ _ _ _ _ _, mkInstallments_nth _ _ _ _ _ _,
    mkInstallments_amounts _ _ _ _ _ _, mkInstallments_statuses _ _ _ _ _ _, rfl⟩

/-- Concrete state for witnesses: one active scheme (the demo scheme), one
active product with stock 5, one customer. -/
def wProduct : Product :=
  { id := 1, sku := "SKU-001", name := "Kulkas", base_price := 4500000,
    stock_qty := 5, is_active := true }

def wCustomer : Customer :=
  { id := 1, nik := "1234567890123456", name := "Budi", phone := "08123456789",
    address := "Jalan Mawar 1" }

def wDB : DB :=
  { schemes := [demoScheme], products := [wProduct], customers := [wCustomer],
    transactions := [], contracts := [], installments := [], nextId := 1 }

def wNow : Date := { year := 2026, month := 9, day := 11 }

def wInput : CreateTransactionInput :=
  { productId := 1, customerId := 1, price := 4500000, dp := 500000,
    schemeId := 1, tenorMonths := 6, dueDateDay := 5 }

def wSim : SimulationResult :=
  mkSim demoScheme
    { price := wInput.price, dp := wInput.dp, schemeId := wInput.schemeId,
      tenorMonths := wInput.tenorMonths }

theorem w_sim_eval : calculateSimulation wDB.schemes
    { price := wInput.price, dp := wInput.dp, schemeId := wInput.schemeId,
      tenorMonths := wInput.tenorMonths } = .ok wSim := by
  show simCore demoScheme
    { price := wInput.price, dp := wInput.dp, schemeId := wInput.schemeId,
      tenorMonths := wInput.tenorMonths } = .ok wSim
  unfold simCore wSim
  norm_num [demoScheme, wInput]

def wOut : DB × CreateResult := buildCreate wDB wNow wInput wProduct wCustomer wSim

theorem w_create_eval : createTransaction wDB wNow wInput = .ok wOut :=
  createTransaction_eq_ok wDB wNow wInput wProduct wCustomer wSim rfl rfl
    (by decide) rfl w_sim_eval (by decide) (by decide)

/-- Witness for C2 on a concrete database (demo scheme, product with stock 5,
tenor 6). -/
theorem createTransaction_installments_witness :
    wOut.2.installments.length = wInput.tenorMonths ∧
    wOut.2.installments.map (fun i => i.installment_nth) =
      List.range' 1 wInput.tenorMonths ∧
    wOut.2.installments.map (fun i => i.amount_due) =
      List.replicate wInput.tenorMonths wOut.2.simulation.monthlyInstallment ∧
    wOut.2.installments.map (fun i => i.status) =
      List.replicate wInput.tenorMonths InstStatus.UNPAID ∧
    wOut.1.installments = wDB.installments ++ wOut.2.installments :=
  createTransaction_installments wDB wNow wInput wOut.1 wOut.2 w_create_eval

/-! ## C6: stock decrement -/

/-- Stock of the product row keyed by pid (0 when absent; every theorem using
it supplies the row explicitly). -/
def stockOf (db : DB) (pid : Nat) : Int :=
  match db.products.find? (fun p => p.id == pid) with
  | some p => p.stock_qty
  | none => 0

theorem find?_decrementStock (l : List Product) (pid : Nat) :
    (decrementStock l pid).find? (fun p => p.id == pid) =
      (l.find? (fun p => p.id == pid)).map
        (fun p => { p with stock_qty := p.stock_qty - 1 }) := by
  induction l with
  | nil => rfl
  | cons a t ih =>
    by_cases hk : a.id = pid
    · have h1 : decrementStock (a :: t) pid =
          { a with stock_qty := a.stock_qty - 1 } :: decrementStock t pid := by
        simp [decrementStock, hk]
      rw [h1]
      simp [hk]
    · have h1 : decrementStock (a :: t) pid = a :: decrementStock t pid := by
        simp [decrementStock, hk]
      rw [h1]
      simp [hk, ih]

theorem createTransaction_stock_step (db : DB) (now : Date)
    (input : CreateTransactionInput) (db' : DB) (res : CreateResult)
    (h : createTransaction db now input = .ok (db', res)) :
    stockOf db' input.productId = stockOf db input.productId - 1 := by
  obtain ⟨product, customer, sim, hprod, -, -, -, -, -, -, hbuild⟩ :=
    createTransaction_ok db now input db' res h
  have hdb : db' = (buildCreate db now input product customer sim).1 :=
    congrArg Prod.fst hbuild
  subst hdb
  unfold stockOf
  rw [buildCreate_fst_products, find?_decrementStock, hprod]
  simp

/-- A sequence of CreateTransaction calls, stopping at the first failure. -/
def runCreates (db : DB) (calls : List (Date × CreateTransactionInput)) :
    Option DB :=
  match calls with
  | [] => some db
  | c :: rest =>
    match createTransaction db c.1 c.2 with
    | .ok r => runCreates r.1 rest
    | .error _ => none

/-- C6: each successful CreateTransaction call decrements the product's
stock_qty by exactly 1; after N successful calls on one product the stock
has dropped by N; and a call on a product whose stock_qty is 0 always
fails (so, the whole unit of work being rolled back, nothing is created
and the product is unchanged). -/
theorem createTransaction_stock :
    (∀ (db : DB) (now : Date) (input : CreateTransactionInput)
      (db' : DB) (res : CreateResult),
      createTransaction db now input = .ok (db', res) →
      stockOf db' input.productId = stockOf db input.productId - 1) ∧
    (∀ (db : DB) (calls : List (Date × CreateTransactionInput)) (db' : DB) (pid : Nat),
      runCreates db calls = some db' →
      (∀ c ∈ calls, c.2.productId = pid) →
      stockOf db' pid = stockOf db pid - calls.length) ∧
    (∀ (db : DB) (now : Date) (input : CreateTransactionInput) (p : Product),
      db.products.find? (fun q => q.id == input.productId) = some p →
      p.stock_qty = 0 →
      isOkE (createTransaction db now input) = false) := by
  refine ⟨createTransaction_stock_step, ?_, ?_⟩
  · intro db calls
    induction calls generalizing db with
    | nil =>
      intro db' pid h hall
      simp only [runCreates, Option.some.injEq] at h
      subst h
      simp
    | cons c rest ih =>
      intro db' pid h hall
      unfold runCreates at h
      split at h
      · rename_i r heq
        have h1 : stockOf r.1 c.2.productId = stockOf db c.2.productId - 1 :=
          createTransaction_stock_step db c.1 c.2 r.1 r.2 (by rw [heq])
        have hpid : c.2.productId = pid := hall c (by simp)
        have h2 := ih r.1 db' pid h (fun x hx => hall x (by simp [hx]))
        rw [hpid] at h1
        rw [h2, h1]
        simp only [List.length_cons]
        push_cast
        ring
      · exact Option.noConfusion h
  · intro db now input p hp hzero
    cases hct : createTransaction db now input with
    | error e => rfl
    | ok pr =>
      obtain ⟨product, customer, sim, hprod, -, hstock, -, -, -, -, -⟩ :=
        createTransaction_ok db now input pr.1 pr.2 (by rw [hct])
      rw [hp] at hprod
      have hpe : p = product := Option.some.inj hprod
      subst hpe
      omega

/-- Second call on the state produced by the first witness call: the stock
has dropped from 5 to 4. -/
def wProduct2 : Product := { wProduct with stock_qty := 4 }

def wOut2 : DB × CreateResult :=
  buildCreate wOut.1 wNow wInput wProduct2 wCustomer wSim

theorem w_create_eval2 : createTransaction wOut.1 wNow wInput = .ok wOut2 :=
  createTransaction_eq_ok wOut.1 wNow wInput wProduct2 wCustomer wSim rfl rfl
    (by decide) rfl w_sim_eval (by decide) (by decide)

def wCalls : List (Date × CreateTransactionInput) := [(wNow, wInput), (wNow, wInput)]

theorem w_run_eval : runCreates wDB wCalls = some wOut2.1 := by
  simp only [wCalls, runCreates, w_create_eval, w_create_eval2]

def zProduct : Product := { wProduct with stock_qty := 0 }

def zeroDB : DB := { wDB with products := [zProduct] }

/-- C6 witness: two successful calls on a product with stock 5 leave stock 3,
each call dropping it by exactly 1, and a call on a zero-stock product fails. -/
theorem createTransaction_stock_witness :
    (createTransaction wDB wNow wInput = .ok wOut ∧
      stockOf wOut.1 wInput.productId = stockOf wDB wInput.productId - 1) ∧
    (runCreates wDB wCalls = some wOut2.1 ∧
      stockOf wOut2.1 1 = stockOf wDB 1 - wCalls.length) ∧
    (zeroDB.products.find? (fun q => q.id == wInput.productId) = some zProduct ∧
      zProduct.stock_qty = 0 ∧
      isOkE (createTransaction zeroDB wNow wInput) = false) :=
  ⟨⟨w_create_eval,
      createTransaction_stock.1 wDB wNow wInput wOut.1 wOut.2 w_create_eval⟩,
    ⟨w_run_eval,
      createTransaction_stock.2.1 wDB wCalls wOut2.1 1 w_run_eval (by decide)⟩,
    rfl, rfl,
    createTransaction_stock.2.2 zeroDB wNow wInput zProduct rfl rfl⟩

/-! ## C9: installment due dates -/

/-- The spec's due-date rule, stated as the spec words it: start_date
advanced by i calendar months, then the day-of-month forced to
due_date_day (time zeroed). -/
def specDueDate (start : Date) (dueDateDay : Nat) (i : Nat) : Date :=
  { year := (start.year * 12 + start.month + i) / 12,
    month := (start.year * 12 + start.month + i) % 12,
    day := dueDateDay }

/-- What the code's two-step Date mutation computes: the spec's rule when the
start day-of-month exists in the target month, one further month otherwise
(JS setMonth overflow). -/
theorem dueDateFrom_eq (start : Date) (dd i : Nat) :
    dueDateFrom start dd i =
      if start.day ≤ daysInMonth ((start.year * 12 + start.month + i) / 12)
          ((start.year * 12 + start.month + i) % 12)
      then specDueDate start dd i
      else specDueDate start dd (i + 1) := by
  unfold dueDateFrom jsSetMonth jsSetDate specDueDate
  simp only [Nat.add_assoc]
  split
  · rfl
  · rfl

/-- C9 (amended): for every successful CreateTransaction, the due_date of
installment i equals start_date advanced by i calendar months with the
day-of-month forced to due_date_day — provided the start date's day-of-month
exists in the target month.  When start_date falls on day 29-31 and the
month i months later is shorter than that day, JS setMonth rolls over and
the due date lands one further calendar month ahead (still on
due_date_day). -/
theorem createTransaction_dueDates (db : DB) (now : Date)
    (input : CreateTransactionInput) (db' : DB) (res : CreateResult)
    (h : createTransaction db now input = .ok (db', res)) :
    res.installments.map (fun i => i.due_date) =
      (List.range' 1 input.tenorMonths).map (fun i =>
        if now.day ≤ daysInMonth ((now.year * 12 + now.month + i) / 12)
            ((now.year * 12 + now.month + i) % 12)
        then specDueDate now input.dueDateDay i
        else specDueDate now input.dueDateDay (i + 1)) := by
  obtain ⟨product, customer, sim, -, -, -, -, -, -, -, hbuild⟩ :=
    createTransaction_ok db now input db' res h
  have hres : res = (buildCreate db now input product customer sim).2 :=
    congrArg Prod.snd hbuild
  subst hres
  rw [buildCreate_snd_installments]
  unfold mkInstallments
  rw [List.map_map, List.range'_eq_map_range, List.map_map]
  apply List.map_congr_left
  intro k hk
  simp only [Function.comp]
  rw [dueDateFrom_eq]
  rw [Nat.add_comm 1 k]

/-- State for the C9 counterexample and witness: scheme with tenor option 1
and no minimum DP; the sale happens on 31 Jan 2026 with dueDateDay 15. -/
def c9Scheme : LoanScheme :=
  { id := 1, name := "Kilat", interest_rate := 2, min_dp_percent := 0,
    tenor_options := [1], penalty_fee_daily := 0, is_active := true }

def c9DB : DB :=
  { schemes := [c9Scheme], products := [wProduct], customers := [wCustomer],
    transactions := [], contracts := [], installments := [], nextId := 1 }

def c9Now : Date := { year := 2026, month := 0, day := 31 }

def c9Input : CreateTransactionInput :=
  { productId := 1, customerId := 1, price := 1000000, dp := 0,
    schemeId := 1, tenorMonths := 1, dueDateDay := 15 }

def c9Sim : SimulationResult :=
  mkSim c9Scheme
    { price := c9Input.price, dp := c9Input.dp, schemeId := c9Input.schemeId,
      tenorMonths := c9Input.tenorMonths }

theorem c9_sim_eval : calculateSimulation c9DB.schemes
    { price := c9Input.price, dp := c9Input.dp, schemeId := c9Input.schemeId,
      tenorMonths := c9Input.tenorMonths } = .ok c9Sim := by
  show simCore c9Scheme
    { price := c9Input.price, dp := c9Input.dp, schemeId := c9Input.schemeId,
      tenorMonths := c9Input.tenorMonths } = .ok c9Sim
  unfold simCore c9Sim
  norm_num [c9Scheme, c9Input]

def c9Out : DB × CreateResult :=
  buildCreate c9DB c9Now c9Input wProduct wCustomer c9Sim

theorem c9_create_eval : createTransaction c9DB c9Now c9Input = .ok c9Out :=
  createTransaction_eq_ok c9DB c9Now c9Input wProduct wCustomer c9Sim rfl rfl
    (by decide) rfl c9_sim_eval (by decide) (by decide)

/-- C9 counterexample: a successful CreateTransaction starting 31 Jan 2026
(tenor 1, dueDateDay 15) schedules its installment on 15 Mar 2026 — setMonth
lands on 31 Feb which JS rolls over to 3 Mar before setDate(15) — while the
claim's rule (advance one calendar month, force the day) gives 15 Feb 2026. -/
theorem dueDate_rollover_counterexample :
    createTransaction c9DB c9Now c9Input = .ok c9Out ∧
    c9Out.2.installments.map (fun i => i.due_date) =
      [{ year := 2026, month := 2, day := 15 }] ∧
    specDueDate c9Now c9Input.dueDateDay 1 =
      { year := 2026, month := 1, day := 15 } ∧
    ({ year := 2026, month := 2, day := 15 } : Date) ≠
      { year := 2026, month := 1, day := 15 } :=
  ⟨c9_create_eval, by decide, by decide, by decide⟩

/-- Witness for the amended C9 at the 31 Jan 2026 state. -/
theorem createTransaction_dueDates_witness :
    c9Out.2.installments.map (fun i => i.due_date) =
      (List.range' 1 c9Input.tenorMonths).map (fun i =>
        if c9Now.day ≤ daysInMonth ((c9Now.year * 12 + c9Now.month + i) / 12)
            ((c9Now.year * 12 + c9Now.month + i) % 12)
        then specDueDate c9Now c9Input.dueDateDay i
        else specDueDate c9Now c9Input.dueDateDay (i + 1)) :=
  createTransaction_dueDates c9DB c9Now c9Input c9Out.1 c9Out.2 c9_create_eval

/-! ## Payment state machine (PaymentController.payInstallment)

The source loads the installment together with its contract, the contract's
full sibling installment list and the parent transaction, fails NotFound when
the installment is missing, fails when the installment is already PAID,
updates the installment (status PAID, amount_paid := amount_due,
paid_at := now), and finally recomputes completion over the PRE-update
sibling list, treating the installment just updated as paid; when all
siblings are paid it flips the parent transaction to PAID.  The contract row
reached through the include is backed by a non-nullable foreign key, so the
missing-contract arm below is unreachable; it is present only to keep the
function total. -/

def payUpdate (now : Date) (i : Installment) : Installment :=
  { i with
    status := InstStatus.PAID, amount_paid := i.amount_due,
    paid_at := some now }

/-- The installment-table update of step 3. -/
def payInstallments (l : List Installment) (iid : Nat) (now : Date) :
    List Installment :=
  l.map (fun i => if i.id == iid then payUpdate now i else i)

/-- The transaction-table update of step 4. -/
def completeTx (l : List Transaction) (tid : Nat) : List Transaction :=
  l.map (fun t => if t.id == tid then { t with status := TxStatus.PAID } else t)

/-- The completion check of the source:
installment.contract.installments.every(inst =>
  inst.id === installmentId ? true : inst.status === PAID). -/
def allSiblingsPaid (db : DB) (cid iid : Nat) : Bool :=
  (db.installments.filter (fun i => i.contract_id == cid)).all
    (fun s => s.id == iid || s.status == InstStatus.PAID)

def payInstallment (db : DB) (now : Date) (installmentId : Nat) :
    Except String DB :=
  match db.installments.find? (fun i => i.id == installmentId) with
  | none => .error "Installment not found"
  | some inst =>
    if inst.status == InstStatus.PAID then
      .error "Installment is already paid"
    else
      match db.contracts.find? (fun c => c.id == inst.contract_id) with
      | none => .error "Credit contract row missing"
      | some contract =>
        let db1 : DB :=
          { db with installments := payInstallments db.installments installmentId now }
        if allSiblingsPaid db inst.contract_id installmentId then
          .ok { db1 with
                transactions := completeTx db1.transactions contract.transaction_id }
        else .ok db1

/-! ## Characterisation of a successful payment -/

theorem payInstallment_ok (db : DB) (now : Date) (iid : Nat)
    (inst : Installment) (c : CreditContract)
    (hfind : db.installments.find? (fun i => i.id == iid) = some inst)
    (hst : ¬ inst.status = InstStatus.PAID)
    (hc : db.contracts.find? (fun x => x.id == inst.contract_id) = some c) :
    payInstallment db now iid = .ok
      { db with
        installments := payInstallments db.installments iid now,
        transactions :=
          if allSiblingsPaid db inst.contract_id iid then
            completeTx db.transactions c.transaction_id
          else db.transactions } := by
  have hst' : (inst.status == InstStatus.PAID) = false := by
    simp [hst]
  simp only [payInstallment, hfind, hst', Bool.false_eq_true, if_false, hc]
  by_cases hall : allSiblingsPaid db inst.contract_id iid = true
  · rw [if_pos hall, if_pos hall]
  · rw [if_neg hall, if_neg hall]

theorem payInstallment_already_paid (db : DB) (now : Date) (iid : Nat)
    (inst : Installment)
    (hfind : db.installments.find? (fun i => i.id == iid) = some inst)
    (hst : inst.status = InstStatus.PAID) :
    payInstallment db now iid = .error "Installment is already paid" := by
  have hb : (inst.status == InstStatus.PAID) = true := by simp [hst]
  simp only [payInstallment, hfind, hb, if_true]

theorem find?_payInstallments (l : List Installment) (iid : Nat) (now : Date) :
    (payInstallments l iid now).find? (fun i => i.id == iid) =
      (l.find? (fun i => i.id == iid)).map (payUpdate now) := by
  induction l with
  | nil => rfl
  | cons a t ih =>
    by_cases hk : a.id = iid
    · have h1 : payInstallments (a :: t) iid now =
          payUpdate now a :: payInstallments t iid now := by
        simp [payInstallments, hk]
      rw [h1]
      simp [hk, payUpdate]
    · have h1 : payInstallments (a :: t) iid now =
          a :: payInstallments t iid now := by
        simp [payInstallments, hk]
      rw [h1]
      simp [hk, ih]

theorem find?_completeTx (l : List Transaction) (tid : Nat) :
    (completeTx l tid).find? (fun t => t.id == tid) =
      (l.find? (fun t => t.id == tid)).map
        (fun t => { t with status := TxStatus.PAID }) := by
  induction l with
  | nil => rfl
  | cons a t ih =>
    by_cases hk : a.id = tid
    · have h1 : completeTx (a :: t) tid =
          { a with status := TxStatus.PAID } :: completeTx t tid := by
        simp [completeTx, hk]
      rw [h1]
      simp [hk]
    · have h1 : completeTx (a :: t) tid = a :: completeTx t tid := by
        simp [completeTx, hk]
      rw [h1]
      simp [hk, ih]

/-! ## C4: completion propagation -/

/-- C4: a successful PayInstallment sets the parent transaction's status to
PAID in that same call exactly when every sibling installment of the
contract — treating the one just updated as PAID — has status PAID; when
some sibling remains unpaid the parent transaction's status field is left
unchanged (so an ACTIVE transaction stays ACTIVE no matter how many
installments are already paid). -/
theorem payInstallment_completion (db : DB) (now : Date) (iid : Nat)
    (inst : Installment) (c : CreditContract) (t : Transaction)
    (hfind : db.installments.find? (fun i => i.id == iid) = some inst)
    (hst : ¬ inst.status = InstStatus.PAID)
    (hc : db.contracts.find? (fun x => x.id == inst.contract_id) = some c)
    (ht : db.transactions.find? (fun x => x.id == c.transaction_id) = some t) :
    isOkE (payInstallment db now iid) = true ∧
    (okD (payInstallment db now iid) db).transactions.find?
        (fun x => x.id == c.transaction_id) =
      some { t with
             status := if allSiblingsPaid db inst.contract_id iid then
               TxStatus.PAID else t.status } := by
  rw [payInstallment_ok db now iid inst c hfind hst hc]
  refine ⟨rfl, ?_⟩
  show (if allSiblingsPaid db inst.contract_id iid then
      completeTx db.transactions c.transaction_id
    else db.transactions).find? (fun x => x.id == c.transaction_id) = _
  by_cases hall : allSiblingsPaid db inst.contract_id iid = true
  · rw [if_pos hall, if_pos hall, find?_completeTx, ht]
    rfl
  · rw [if_neg hall, if_neg hall, ht]

/-- Witness state for the payment claims: a contract of tenor 2 whose first
installment is already PAID and whose second is UNPAID; paying installment 2
completes the contract. -/
def pContract : CreditContract :=
  { id := 1, transaction_id := 1, principal_amount := 4000000,
    total_interest := 480000, monthly_installment := 746667,
    start_date := wNow, due_date_day := 5, tenor_months := 2 }

def pTx : Transaction :=
  { id := 1, customerId := 1, productId := 1, customer_name := "Budi",
    customer_phone := "08123456789", customer_ktp := "1234567890123456",
    total_price := 4500000, dp_amount := 500000, scheme_snapshot := demoScheme,
    status := TxStatus.ACTIVE }

def pInst1 : Installment :=
  { id := 1, contract_id := 1, installment_nth := 1, due_date := wNow,
    amount_due := 746667, amount_paid := 746667, penalty_paid := 0,
    penalty_accrued := 0, status := InstStatus.PAID, paid_at := some wNow }

def pInst2 : Installment :=
  { id := 2, contract_id := 1, installment_nth := 2, due_date := wNow,
    amount_due := 746667, amount_paid := 0, penalty_paid := 0,
    penalty_accrued := 0, status := InstStatus.UNPAID, paid_at := none }

def pDB : DB :=
  { schemes := [demoScheme], products := [wProduct], customers := [wCustomer],
    transactions := [pTx], contracts := [pContract],
    installments := [pInst1, pInst2], nextId := 3 }

/-- Witness for C4: paying the last unpaid installment of pDB flips the
parent transaction to PAID. -/
theorem payInstallment_completion_witness :
    isOkE (payInstallment pDB wNow 2) = true ∧
    (okD (payInstallment pDB wNow 2) pDB).transactions.find?
        (fun x => x.id == pContract.transaction_id) =
      some { pTx with
             status := if allSiblingsPaid pDB pInst2.contract_id 2 then
               TxStatus.PAID else pTx.status } :=
  payInstallment_completion pDB wNow 2 pInst2 pContract pTx rfl (by decide)
    rfl rfl

/-! ## C5: double payment -/

/-- C5: on an installment that is not yet PAID, the first PayInstallment call
succeeds and sets status = PAID, amount_paid = amount_due and paid_at = now;
a second call on the same id fails with the "already paid" error, the thrown
error rolling the unit of work back so no state changes. -/
theorem payInstallment_second_call (db : DB) (now1 now2 : Date) (iid : Nat)
    (inst : Installment) (c : CreditContract)
    (hfind : db.installments.find? (fun i => i.id == iid) = some inst)
    (hst : ¬ inst.status = InstStatus.PAID)
    (hc : db.contracts.find? (fun x => x.id == inst.contract_id) = some c) :
    isOkE (payInstallment db now1 iid) = true ∧
    (okD (payInstallment db now1 iid) db).installments.find?
        (fun i => i.id == iid) = some (payUpdate now1 inst) ∧
    payInstallment (okD (payInstallment db now1 iid) db) now2 iid =
      .error "Installment is already paid" := by
  rw [payInstallment_ok db now1 iid inst c hfind hst hc]
  refine ⟨rfl, ?_, ?_⟩
  · show (payInstallments db.installments iid now1).find?
        (fun i => i.id == iid) = _
    rw [find?_payInstallments, hfind]
    rfl
  · refine payInstallment_already_paid _ now2 iid (payUpdate now1 inst) ?_ rfl
    show (payInstallments db.installments iid now1).find?
        (fun i => i.id == iid) = _
    rw [find?_payInstallments, hfind]
    rfl

def wNow2 : Date := { year := 2026, month := 10, day := 1 }

/-- Witness for C5 on pDB's unpaid installment 2: after the successful first
call the row reads status PAID, amount_paid = amount_due, paid_at = now, and
the repeated call errors. -/
theorem payInstallment_second_call_witness :
    isOkE (payInstallment pDB wNow 2) = true ∧
    (okD (payInstallment pDB wNow 2) pDB).installments.find?
        (fun i => i.id == 2) = some (payUpdate wNow pInst2) ∧
    payInstallment (okD (payInstallment pDB wNow 2) pDB) wNow2 2 =
      .error "Installment is already paid" :=
  payInstallment_second_call pDB wNow wNow2 2 pInst2 pContract rfl (by decide)
    rfl

/-! ## C10: PARTIAL and LATE are accepted by the payment endpoint -/

/-- C10: the only business-rule rejection in payInstallment is
status = PAID; an installment in state PARTIAL or LATE is accepted, moved to
PAID, and its amount_paid is overwritten with the full amount_due regardless
of any previously recorded partial amount. -/
theorem payInstallment_nonpaid_states (db : DB) (now : Date) (iid : Nat)
    (inst : Installment) (c : CreditContract)
    (hfind : db.installments.find? (fun i => i.id == iid) = some inst)
    (hst : inst.status = InstStatus.PARTIAL ∨ inst.status = InstStatus.LATE)
    (hc : db.contracts.find? (fun x => x.id == inst.contract_id) = some c) :
    isOkE (payInstallment db now iid) = true ∧
    (okD (payInstallment db now iid) db).installments.find?
        (fun i => i.id == iid) = some (payUpdate now inst) := by
  have hst' : ¬ inst.status = InstStatus.PAID := by
    rcases hst with h | h <;> simp [h]
  rw [payInstallment_ok db now iid inst c hfind hst' hc]
  refine ⟨rfl, ?_⟩
  show (payInstallments db.installments iid now).find?
      (fun i => i.id == iid) = _
  rw [find?_payInstallments, hfind]
  rfl

/-- A PARTIAL installment with a recorded partial amount of 100. -/
def qInst : Installment :=
  { id := 2, contract_id := 1, installment_nth := 2, due_date := wNow,
    amount_due := 746667, amount_paid := 100, penalty_paid := 0,
    penalty_accrued := 0, status := InstStatus.PARTIAL, paid_at := none }

def qDB : DB := { pDB with installments := [pInst1, qInst] }

/-- Witness for C10: the PARTIAL installment (amount_paid 100) is accepted
and its amount_paid is overwritten with the full amount_due 746667. -/
theorem payInstallment_nonpaid_states_witness :
    isOkE (payInstallment qDB wNow 2) = true ∧
    (okD (payInstallment qDB wNow 2) qDB).installments.find?
        (fun i => i.id == 2) = some (payUpdate wNow qInst) :=
  payInstallment_nonpaid_states qDB wNow 2 qInst pContract rfl (Or.inl rfl) rfl

/-! ## Substring matching (JS String.prototype.includes)

message.includes(pat) is modelled on the character lists of the strings. -/

def isPre {α : Type} [DecidableEq α] : List α → List α → Bool
  | [], _ => true
  | _ :: _, [] => false
  | p :: ps, x :: xs => p == x && isPre ps xs

def hasSub {α : Type} [DecidableEq α] (pat : List α) : List α → Bool
  | [] => isPre pat []
  | x :: xs => isPre pat (x :: xs) || hasSub pat xs

def strIncludes (s pat : String) : Bool := hasSub pat.data s.data

theorem isPre_self {α : Type} [DecidableEq α] (l : List α) : isPre l l = true := by
  induction l with
  | nil => rfl
  | cons a t ih => simp [isPre, ih]

theorem hasSub_self {α : Type} [DecidableEq α] (l : List α) :
    hasSub l l = true := by
  cases l with
  | nil => rfl
  | cons a t => simp [hasSub, isPre_self]

theorem hasSub_append_left {α : Type} [DecidableEq α] (pre l pat : List α)
    (h : hasSub pat l = true) : hasSub pat (pre ++ l) = true := by
  induction pre with
  | nil => simpa using h
  | cons a t ih => simp [hasSub, ih]

/-- A string always includes its own trailing append operand. -/
theorem strIncludes_append (a pat : String) :
    strIncludes (a ++ pat) pat = true := by
  unfold strIncludes
  have hdata : (a ++ pat).data = a.data ++ pat.data := rfl
  rw [hdata]
  exact hasSub_append_left a.data pat.data pat.data (hasSub_self pat.data)

/-! ## HTTP status mapping (TransactionController.create)

The catch block: 404 when the thrown message includes 'tidak ditemukan' or
'not found'; 409 when it includes 'habis' or 'tidak aktif'; 400 otherwise.
The numeric renderings inside the messages are never inspected. -/

def classifyCreateError (msg : String) : Nat :=
  if strIncludes msg "tidak ditemukan" || strIncludes msg "not found" then 404
  else if strIncludes msg "habis" || strIncludes msg "tidak aktif" then 409
  else 400

/-- POST /api/transactions: the controller's own numeric validation (the
missing-field and NaN checks are outside this embedding — inputs here are
always present numbers), then the service call, then the status mapping:
201 on success, otherwise the classification of the thrown message. -/
def createEndpoint (db : DB) (now : Date) (input : CreateTransactionInput) :
    Nat :=
  if input.price ≤ 0 then 400
  else if input.dp < 0 then 400
  else if input.dp ≥ input.price then 400
  else
    match createTransaction db now input with
    | .ok _ => 201
    | .error msg => classifyCreateError msg

theorem classify_404_left (msg : String)
    (h : strIncludes msg "tidak ditemukan" = true) :
    classifyCreateError msg = 404 := by
  simp [classifyCreateError, h]

theorem classify_404_right (msg : String)
    (h : strIncludes msg "not found" = true) :
    classifyCreateError msg = 404 := by
  simp [classifyCreateError, h]

theorem classify_409 (msg : String)
    (h1 : strIncludes msg "tidak ditemukan" = false)
    (h2 : strIncludes msg "not found" = false)
    (h3 : strIncludes msg "habis" = true ∨ strIncludes msg "tidak aktif" = true) :
    classifyCreateError msg = 409 := by
  rcases h3 with h3 | h3 <;> simp [classifyCreateError, h1, h2, h3]

theorem classify_400 (msg : String)
    (h1 : strIncludes msg "tidak ditemukan" = false)
    (h2 : strIncludes msg "not found" = false)
    (h3 : strIncludes msg "habis" = false)
    (h4 : strIncludes msg "tidak aktif" = false) :
    classifyCreateError msg = 400 := by
  simp [classifyCreateError, h1, h2, h3, h4]

/-! ## Error paths of calculateSimulation and createTransaction -/

theorem calcSim_err_notfound (schemes : List LoanScheme)
    (input : SimulationInput)
    (hnone : schemes.find? (fun s => s.id == input.schemeId) = none) :
    calculateSimulation schemes input = .error (msgSchemeNotFound input.schemeId) := by
  simp only [calculateSimulation, hnone]

theorem calcSim_err_inactive (schemes : List LoanScheme)
    (input : SimulationInput) (scheme : LoanScheme)
    (hfind : schemes.find? (fun s => s.id == input.schemeId) = some scheme)
    (hact : scheme.is_active = false) :
    calculateSimulation schemes input = .error (msgSchemeInactive scheme.name) := by
  simp only [calculateSimulation, hfind, simCore, if_pos hact]

theorem createTransaction_err_product (db : DB) (now : Date)
    (input : CreateTransactionInput)
    (hday1 : 1 ≤ input.dueDateDay) (hday2 : input.dueDateDay ≤ 28)
    (hnone : db.products.find? (fun p => p.id == input.productId) = none) :
    createTransaction db now input = .error (msgProductNotFound input.productId) := by
  have hd : ¬ (input.dueDateDay < 1 ∨ 28 < input.dueDateDay) := by omega
  simp only [createTransaction, if_neg hd, hnone]

theorem createTransaction_err_inactive (db : DB) (now : Date)
    (input : CreateTransactionInput) (product : Product)
    (hday1 : 1 ≤ input.dueDateDay) (hday2 : input.dueDateDay ≤ 28)
    (hprod : db.products.find? (fun p => p.id == input.productId) = some product)
    (hact : product.is_active = false) :
    createTransaction db now input = .error (msgProductInactive product.name) := by
  have hd : ¬ (input.dueDateDay < 1 ∨ 28 < input.dueDateDay) := by omega
  simp only [createTransaction, if_neg hd, hprod, if_pos hact]

theorem createTransaction_err_stock (db : DB) (now : Date)
    (input : CreateTransactionInput) (product : Product)
    (hday1 : 1 ≤ input.dueDateDay) (hday2 : input.dueDateDay ≤ 28)
    (hprod : db.products.find? (fun p => p.id == input.productId) = some product)
    (hact : product.is_active = true) (hstock : product.stock_qty ≤ 0) :
    createTransaction db now input = .error (msgOutOfStock product.name) := by
  have hd : ¬ (input.dueDateDay < 1 ∨ 28 < input.dueDateDay) := by omega
  have hact' : ¬ (product.is_active = false) := by simp [hact]
  simp only [createTransaction, if_neg hd, hprod, if_neg hact', if_pos hstock]

theorem createTransaction_err_customer (db : DB) (now : Date)
    (input : CreateTransactionInput) (product : Product)
    (hday1 : 1 ≤ input.dueDateDay) (hday2 : input.dueDateDay ≤ 28)
    (hprod : db.products.find? (fun p => p.id == input.productId) = some product)
    (hact : product.is_active = true) (hstock : 0 < product.stock_qty)
    (hnone : db.customers.find? (fun c => c.id == input.customerId) = none) :
    createTransaction db now input = .error (msgCustomerNotFound input.customerId) := by
  have hd : ¬ (input.dueDateDay < 1 ∨ 28 < input.dueDateDay) := by omega
  have hact' : ¬ (product.is_active = false) := by simp [hact]
  have hstock' : ¬ (product.stock_qty ≤ 0) := not_le.mpr hstock
  simp only [createTransaction, if_neg hd, hprod, if_neg hact', if_neg hstock',
    hnone]

theorem createTransaction_err_sim (db : DB) (now : Date)
    (input : CreateTransactionInput) (product : Product) (customer : Customer)
    (e : String)
    (hday1 : 1 ≤ input.dueDateDay) (hday2 : input.dueDateDay ≤ 28)
    (hprod : db.products.find? (fun p => p.id == input.productId) = some product)
    (hact : product.is_active = true) (hstock : 0 < product.stock_qty)
    (hcust : db.customers.find? (fun c => c.id == input.customerId) = some customer)
    (hsim : calculateSimulation db.schemes
      { price := input.price, dp := input.dp, schemeId := input.schemeId,
        tenorMonths := input.tenorMonths } = .error e) :
    createTransaction db now input = .error e := by
  have hd : ¬ (input.dueDateDay < 1 ∨ 28 < input.dueDateDay) := by omega
  have hact' : ¬ (product.is_active = false) := by simp [hact]
  have hstock' : ¬ (product.stock_qty ≤ 0) := not_le.mpr hstock
  simp only [createTransaction, if_neg hd, hprod, if_neg hact', if_neg hstock',
    hcust, hsim]

theorem createEndpoint_of_error (db : DB) (now : Date)
    (input : CreateTransactionInput) (msg : String)
    (hp : ¬ input.price ≤ 0) (hd : ¬ input.dp < 0)
    (hdp : ¬ input.dp ≥ input.price)
    (herr : createTransaction db now input = .error msg) :
    createEndpoint db now input = classifyCreateError msg := by
  simp only [createEndpoint, if_neg hp, if_neg hd, if_neg hdp, herr]

/-! ## C7: the HTTP status mapping of CreateTransaction failures -/

/-- C7 (amended): when the controller's numeric validation passes and
dueDateDay lies in 1..28, CreateTransaction's failure statuses are: 404 for
an unknown product, customer or scheme; 409 for an inactive product and for
an out-of-stock product (their Indonesian messages end in the matched
phrases; the product name must not itself contain a 404 phrase); but an
existing scheme whose is_active = false yields 400, not 409 — its message
"Loan scheme … is not active" is English and matches none of the
classifier's phrases. -/
theorem createEndpoint_status_mapping :
    (∀ (db : DB) (now : Date) (input : CreateTransactionInput),
      0 < input.price → 0 ≤ input.dp → input.dp < input.price →
      1 ≤ input.dueDateDay → input.dueDateDay ≤ 28 →
      db.products.find? (fun p => p.id == input.productId) = none →
      createEndpoint db now input = 404) ∧
    (∀ (db : DB) (now : Date) (input : CreateTransactionInput) (product : Product),
      0 < input.price → 0 ≤ input.dp → input.dp < input.price →
      1 ≤ input.dueDateDay → input.dueDateDay ≤ 28 →
      db.products.find? (fun p => p.id == input.productId) = some product →
      product.is_active = false →
      strIncludes (msgProductInactive product.name) "tidak ditemukan" = false →
      strIncludes (msgProductInactive product.name) "not found" = false →
      createEndpoint db now input = 409) ∧
    (∀ (db : DB) (now : Date) (input : CreateTransactionInput) (product : Product),
      0 < input.price → 0 ≤ input.dp → input.dp < input.price →
      1 ≤ input.dueDateDay → input.dueDateDay ≤ 28 →
      db.products.find? (fun p => p.id == input.productId) = some product →
      product.is_active = true → product.stock_qty ≤ 0 →
      strIncludes (msgOutOfStock product.name) "tidak ditemukan" = false →
      strIncludes (msgOutOfStock product.name) "not found" = false →
      createEndpoint db now input = 409) ∧
    (∀ (db : DB) (now : Date) (input : CreateTransactionInput) (product : Product),
      0 < input.price → 0 ≤ input.dp → input.dp < input.price →
      1 ≤ input.dueDateDay → input.dueDateDay ≤ 28 →
      db.products.find? (fun p => p.id == input.productId) = some product →
      product.is_active = true → 0 < product.stock_qty →
      db.customers.find? (fun c => c.id == input.customerId) = none →
      createEndpoint db now input = 404) ∧
    (∀ (db : DB) (now : Date) (input : CreateTransactionInput)
      (product : Product) (customer : Customer),
      0 < input.price → 0 ≤ input.dp → input.dp < input.price →
      1 ≤ input.dueDateDay → input.dueDateDay ≤ 28 →
      db.products.find? (fun p => p.id == input.productId) = some product →
      product.is_active = true → 0 < product.stock_qty →
      db.customers.find? (fun c => c.id == input.customerId) = some customer →
      db.schemes.find? (fun s => s.id == input.schemeId) = none →
      createEndpoint db now input = 404) ∧
    (∀ (db : DB) (now : Date) (input : CreateTransactionInput)
      (product : Product) (customer : Customer) (scheme : LoanScheme),
      0 < input.price → 0 ≤ input.dp → input.dp < input.price →
      1 ≤ input.dueDateDay → input.dueDateDay ≤ 28 →
      db.products.find? (fun p => p.id == input.productId) = some product →
      product.is_active = true → 0 < product.stock_qty →
      db.customers.find? (fun c => c.id == input.customerId) = some customer →
      db.schemes.find? (fun s => s.id == input.schemeId) = some scheme →
      scheme.is_active = false →
      strIncludes (msgSchemeInactive scheme.name) "tidak ditemukan" = false →
      strIncludes (msgSchemeInactive scheme.name) "not found" = false →
      strIncludes (msgSchemeInactive scheme.name) "habis" = false →
      strIncludes (msgSchemeInactive scheme.name) "tidak aktif" = false →
      createEndpoint db now input = 400) := by
  refine ⟨?_, ?_, ?_, ?_, ?_, ?_⟩
  · intro db now input hp hd hdp h1 h2 hnone
    rw [createEndpoint_of_error db now input _ (not_le.mpr hp) (not_lt.mpr hd)
      (not_le.mpr hdp) (createTransaction_err_product db now input h1 h2 hnone)]
    exact classify_404_left _ (strIncludes_append _ _)
  · intro db now input product hp hd hdp h1 h2 hprod hact hy1 hy2
    rw [createEndpoint_of_error db now input _ (not_le.mpr hp) (not_lt.mpr hd)
      (not_le.mpr hdp)
      (createTransaction_err_inactive db now input product h1 h2 hprod hact)]
    exact classify_409 _ hy1 hy2 (Or.inr (strIncludes_append _ _))
  · intro db now input product hp hd hdp h1 h2 hprod hact hstock hy1 hy2
    rw [createEndpoint_of_error db now input _ (not_le.mpr hp) (not_lt.mpr hd)
      (not_le.mpr hdp)
      (createTransaction_err_stock db now input product h1 h2 hprod hact hstock)]
    exact classify_409 _ hy1 hy2 (Or.inl (strIncludes_append _ _))
  · intro db now input product hp hd hdp h1 h2 hprod hact hstock hnone
    rw [createEndpoint_of_error db now input _ (not_le.mpr hp) (not_lt.mpr hd)
      (not_le.mpr hdp)
      (createTransaction_err_customer db now input product h1 h2 hprod hact
        hstock hnone)]
    exact classify_404_left _ (strIncludes_append _ _)
  · intro db now input product customer hp hd hdp h1 h2 hprod hact hstock
      hcust hnone
    rw [createEndpoint_of_error db now input _ (not_le.mpr hp) (not_lt.mpr hd)
      (not_le.mpr hdp)
      (createTransaction_err_sim db now input product customer _ h1 h2 hprod
        hact hstock hcust (calcSim_err_notfound db.schemes _ hnone))]
    exact classify_404_right _ (strIncludes_append _ _)
  · intro db now input product customer scheme hp hd hdp h1 h2 hprod hact
      hstock hcust hfind hsct hy1 hy2 hy3 hy4
    rw [createEndpoint_of_error db now input _ (not_le.mpr hp) (not_lt.mpr hd)
      (not_le.mpr hdp)
      (createTransaction_err_sim db now input product customer _ h1 h2 hprod
        hact hstock hcust (calcSim_err_inactive db.schemes _ scheme hfind hsct))]
    exact classify_400 _ hy1 hy2 hy3 hy4

/-- One small database per failure mode of the witness. -/
def aDB : DB := { wDB with products := [] }

def bProduct : Product := { wProduct with is_active := false }

def bDB : DB := { wDB with products := [bProduct] }

def dDB : DB := { wDB with customers := [] }

def eDB : DB := { wDB with schemes := [] }

def fScheme : LoanScheme := { demoScheme with is_active := false }

def fDB : DB := { wDB with schemes := [fScheme] }

/-- Witness for the amended C7, one concrete call per failure mode. -/
theorem createEndpoint_status_mapping_witness :
    createEndpoint aDB wNow wInput = 404 ∧
    createEndpoint bDB wNow wInput = 409 ∧
    createEndpoint zeroDB wNow wInput = 409 ∧
    createEndpoint dDB wNow wInput = 404 ∧
    createEndpoint eDB wNow wInput = 404 ∧
    createEndpoint fDB wNow wInput = 400 :=
  ⟨createEndpoint_status_mapping.1 aDB wNow wInput (by norm_num [wInput])
      (by norm_num [wInput]) (by norm_num [wInput]) (by decide) (by decide) rfl,
    createEndpoint_status_mapping.2.1 bDB wNow wInput bProduct
      (by norm_num [wInput]) (by norm_num [wInput]) (by norm_num [wInput])
      (by decide) (by decide) rfl rfl (by decide) (by decide),
    createEndpoint_status_mapping.2.2.1 zeroDB wNow wInput zProduct
      (by norm_num [wInput]) (by norm_num [wInput]) (by norm_num [wInput])
      (by decide) (by decide) rfl rfl (by decide) (by decide) (by decide),
    createEndpoint_status_mapping.2.2.2.1 dDB wNow wInput wProduct
      (by norm_num [wInput]) (by norm_num [wInput]) (by norm_num [wInput])
      (by decide) (by decide) rfl rfl (by decide) rfl,
    createEndpoint_status_mapping.2.2.2.2.1 eDB wNow wInput wProduct wCustomer
      (by norm_num [wInput]) (by norm_num [wInput]) (by norm_num [wInput])
      (by decide) (by decide) rfl rfl (by decide) rfl rfl,
    createEndpoint_status_mapping.2.2.2.2.2 fDB wNow wInput wProduct wCustomer
      fScheme (by norm_num [wInput]) (by norm_num [wInput])
      (by norm_num [wInput]) (by decide) (by decide) rfl rfl (by decide) rfl
      rfl rfl (by decide) (by decide) (by decide) (by decide)⟩

/-- C7 counterexample: a CreateTransaction call referencing the existing but
inactive scheme of fDB (product active with stock, customer present, inputs
valid) returns HTTP 400, not the claimed 409: the thrown message
"Loan scheme \"Reguler\" is not active" matches neither 'tidak aktif' nor
any other classifier phrase. -/
theorem inactive_scheme_status_counterexample :
    (fDB.schemes.find? (fun s => s.id == wInput.schemeId)).map
        (fun s => s.is_active) = some false ∧
    createEndpoint fDB wNow wInput = 400 ∧
    createEndpoint fDB wNow wInput ≠ 409 := by
  have h2 : createEndpoint fDB wNow wInput = 400 := by
    rw [createEndpoint_of_error fDB wNow wInput _ (by norm_num [wInput])
      (by norm_num [wInput]) (by norm_num [wInput])
      (createTransaction_err_sim fDB wNow wInput wProduct wCustomer _
        (by decide) (by decide) rfl rfl (by decide) rfl
        (calcSim_err_inactive fDB.schemes _ fScheme rfl rfl))]
    exact classify_400 _ (by decide) (by decide) (by decide) (by decide)
  refine ⟨rfl, h2, ?_⟩
  rw [h2]
  decide

/-! ## C8: the Simulate endpoint's falsy missing-fields guard -/

structure SimResponse where
  status : Nat
  msg : String
deriving DecidableEq, Inhabited, Repr

/-- POST /api/transactions/simulate, for requests whose four fields are
present numbers.  JS `!x` is true for the number 0, so the missing-fields
guard also trips on a present value of 0 — in particular on dp = 0.  The
source's second guard also tests schemeId <= 0 and tenorMonths <= 0; with
ids and tenors as Nat those are exactly the = 0 cases the first guard has
already consumed, so they are omitted here.  Result: status 200 with the
simulation on success, 400 with the thrown message otherwise. -/
def simulateEndpoint (schemes : List LoanScheme) (price dp : ℚ)
    (schemeId tenorMonths : Nat) : SimResponse × Option SimulationResult :=
  if price = 0 ∨ dp = 0 ∨ schemeId = 0 ∨ tenorMonths = 0 then
    (⟨400, "Missing required fields: price, dp, schemeId, tenorMonths"⟩, none)
  else if price ≤ 0 ∨ dp < 0 then
    (⟨400, "Price and tenor must be positive. DP cannot be negative."⟩, none)
  else if dp ≥ price then
    (⟨400, "DP tidak boleh melebihi atau sama dengan harga"⟩, none)
  else
    match calculateSimulation schemes
        { price := price, dp := dp, schemeId := schemeId,
          tenorMonths := tenorMonths } with
    | .ok sim => (⟨200, ""⟩, some sim)
    | .error msg => (⟨400, msg⟩, none)

/-- Scheme against which dp = 0 is legitimate: min_dp_percent 0. -/
def c8Scheme : LoanScheme := { demoScheme with min_dp_percent := 0 }

/-- C8 (code bug): a simulate request with price 4,500,000, dp 0, schemeId 1,
tenorMonths 6 against an active scheme whose min_dp_percent is 0 and whose
tenor_options contain 6 is rejected as "Missing required fields" with
status 400 — `!dp` is truthy for dp = 0 — even though the business rules
(and the engine itself, whose simulation succeeds on the same input) accept
dp = 0. -/
theorem simulate_dp_zero_rejected :
    simulateEndpoint [c8Scheme] 4500000 0 1 6 =
      (⟨400, "Missing required fields: price, dp, schemeId, tenorMonths"⟩,
        none) ∧
    isOkE (calculateSimulation [c8Scheme]
      { price := 4500000, dp := 0, schemeId := 1, tenorMonths := 6 }) = true := by
  constructor
  · unfold simulateEndpoint
    rw [if_pos (by norm_num)]
  · show isOkE (simCore c8Scheme
      { price := 4500000, dp := 0, schemeId := 1, tenorMonths := 6 }) = true
    unfold simCore
    rw [if_neg (by simp [c8Scheme, demoScheme]),
      if_neg (by simp [c8Scheme, demoScheme]),
      if_neg (by norm_num [c8Scheme, demoScheme])]
    rfl

end Amali